import Mathlib

/-!
Shallow embedding of the asynchronous orchestration core of the
whisper-clip application (files `app.py` and `codex_cli_wrapper.py`).

The `MainWindow` object of `app.py` is embedded as the structure
`MainWindowState`; each Qt slot / method of `MainWindow` that the claims
touch becomes a pure function `MainWindowState → … → MainWindowState`,
translated line by line from the source.  Conventions:

* Qt widgets are represented by the fields the orchestration code reads or
  writes: `setEnabled`/`setChecked` become Boolean fields, `setPlainText`
  becomes the `textArea` string, the system clipboard is the `clipboard`
  string, and `_set_status` / `_set_clipboard_state` write the `status` /
  `clipState`,`clipMsg` fields.
* Status messages are an inductive type `StatusMsg` with one constructor
  per distinct message written by `_set_status`, carrying the message's
  parameters.  Elapsed-time floats are abstracted as `Nat` ticks (the
  orchestration code never branches on their values, it only adds and
  formats them).
* Audio samples (`float32`) are abstracted as `Int`; the orchestration
  code never inspects sample values, only whether the chunk list is empty,
  and concatenates chunks.
* Background `QThread`s are reflected by ghost fields: `loaderInFlight`
  lists the model names of running `ModelLoader` threads (a list, so that
  "at most one load in flight" is a provable property rather than a
  modelling assumption), `workerInFlight` / `glossaryInFlight` record a
  running `Transcriber` / `GlossaryProcessor` thread.  A settle handler
  (`loaded`/`error`/`finished` signal) removes the corresponding thread,
  since those signals are also connected to the thread's `quit`.
* Fallible external actions (microphone open, subprocess runs, the
  `ask_codex` call) are passed in as `Except`/outcome parameters.
-/

/-- Status messages, one constructor per distinct `_set_status` call site in
`app.py` (parameters of the f-strings are carried as arguments; the two
`"Done in {…}s. Copied."` call sites share one constructor because they use
the identical format string). -/
inductive StatusMsg where
  | loadingModel                       -- "Loading model…"
  | ready                              -- "Ready"
  | modelLoadFailed (msg : String)     -- f"Model load failed: {message}"
  | stopRecordingFirst                 -- "Stop recording to change the model."
  | modelNotLoaded                     -- "Model not loaded yet."
  | recordingNow                       -- "Recording…"
  | microphoneError (msg : String)     -- f"Microphone error: {exc}"
  | noAudioCaptured                    -- "No audio captured."
  | transcribing                       -- "Transcribing…"
  | doneCopied (seconds : Nat)         -- f"Done in {t:.1f}s. Copied."
  | doneNoSpeech                       -- "Done, but no speech detected."
  | transcriptionFailed (msg : String) -- f"Transcription failed: {message}"
  | applyingGlossary                   -- "Applying glossary…"
  | glossaryNoText                     -- "Glossary applied, but no text returned."
  | glossaryFailed (msg : String)      -- f"Glossary failed: {message}"
  | copiedLatest                       -- "Copied latest text to clipboard."
  | glossaryEnabledNoTerms             -- "Glossary enabled (no terms yet)."
  | glossaryEnabledOn                  -- "Glossary enabled."
  | glossaryDisabled                   -- "Glossary disabled."
  | glossaryUpdated (n : Nat)          -- f"Glossary updated ({n} terms)."
  | glossaryLoadFailed (msg : String)  -- f"Glossary load failed: {exc}"
  | glossarySaveFailed (msg : String)  -- f"Glossary save failed: {exc}"
  deriving DecidableEq, Repr

/-- The state of `MainWindow` (fields set in `MainWindow.__init__`), plus the
UI-widget state the orchestration code reads/writes, plus ghost fields
reflecting running background threads. -/
structure MainWindowState where
  /-- `self.model`: the loaded whisper model, abstracted by the name it was
  loaded for (`ModelLoader` emits the model together with its name). -/
  model : Option String
  /-- `self.model_name` — the current selection. -/
  modelName : String
  /-- `self.recording` -/
  recording : Bool
  /-- `self.frames` — captured audio chunks (sample values abstracted). -/
  frames : List (List Int)
  /-- `self.stream is not None` -/
  stream : Bool
  /-- `self.latest_text` -/
  latestText : String
  /-- `self.glossary_enabled` -/
  glossaryEnabled : Bool
  /-- `self.glossary_terms` -/
  glossaryTerms : List (String × String)
  /-- `self._pending_glossary_source` -/
  pendingGlossarySource : String
  /-- `self._last_transcription_time` (abstract ticks) -/
  lastTranscriptionTime : Nat
  /-- `self._loading_model` -/
  loadingModel : Bool
  /-- `self._pending_model_name` (`None` or a name; Python truthiness of the
  empty string is modelled by `pendingTruthy`). -/
  pendingModelName : Option String
  /-- `self.record_button.isEnabled()` -/
  recordEnabled : Bool
  /-- `self.record_button.isChecked()` -/
  recordChecked : Bool
  /-- `self.model_combo.isEnabled()` -/
  comboEnabled : Bool
  /-- `self.copy_button.isEnabled()` -/
  copyEnabled : Bool
  /-- text shown in `self.text_area` -/
  textArea : String
  /-- last message passed to `_set_status` -/
  status : StatusMsg
  /-- `state` argument of the last `_set_clipboard_state` call -/
  clipState : String
  /-- `message` argument of the last `_set_clipboard_state` call -/
  clipMsg : String
  /-- content of the system clipboard -/
  clipboard : String
  /-- ghost: model names of running `ModelLoader` threads -/
  loaderInFlight : List String
  /-- ghost: a `Transcriber` worker thread is running -/
  workerInFlight : Bool
  /-- audio handed to the running `Transcriber` (constructor argument) -/
  workerAudio : List Int
  /-- ghost: a `GlossaryProcessor` thread is running -/
  glossaryInFlight : Bool
  /-- text handed to the running `GlossaryProcessor` (constructor argument) -/
  glossaryJobText : String
  /-- glossary handed to the running `GlossaryProcessor` -/
  glossaryJobTerms : List (String × String)
  deriving DecidableEq, Repr

/-- Python truthiness of `self._pending_model_name` (`None` and `""` are
falsy), as used by `if self._pending_model_name:`. -/
def pendingTruthy : Option String → Bool
  | none => false
  | some p => p != ""

/-- `MainWindow._load_model_async` (app.py:510-532).  If a load is already
in flight the request is only remembered in `_pending_model_name`;
otherwise a `ModelLoader` thread for `self.model_name` is started. -/
def loadModelAsync (s : MainWindowState) : MainWindowState :=
  if s.loadingModel then
    { s with pendingModelName := some s.modelName }
  else
    { s with
      status := .loadingModel,
      clipState := "idle", clipMsg := "Clipboard: idle",
      recordEnabled := false,
      comboEnabled := false,
      loadingModel := true,
      pendingModelName := none,
      loaderInFlight := s.modelName :: s.loaderInFlight }

/-- `MainWindow._on_model_change` (app.py:498-508).  While recording the
combo box is reverted (selection unchanged) and a status message is shown;
a re-selection of the current name is ignored; otherwise the selection is
updated and a load is requested. -/
def onModelChange (s : MainWindowState) (name : String) : MainWindowState :=
  if s.recording then
    { s with status := .stopRecordingFirst }
  else if name = s.modelName then
    s
  else
    loadModelAsync { s with modelName := name }

/-- `MainWindow._on_model_loaded` (app.py:534-544).  `name` is the
`model_name` the settling `ModelLoader` was constructed with; the `loaded`
signal is also connected to the loader thread's `quit`, so the ghost
`loaderInFlight` drops that thread. -/
def onModelLoaded (s : MainWindowState) (name : String) : MainWindowState :=
  let s1 := { s with loadingModel := false, loaderInFlight := s.loaderInFlight.erase name }
  if name ≠ s1.modelName then
    if pendingTruthy s1.pendingModelName then loadModelAsync s1 else s1
  else
    { s1 with
      model := some name,
      recordEnabled := true,
      comboEnabled := true,
      status := .ready }

/-- `MainWindow._on_model_error` (app.py:546-555). -/
def onModelError (s : MainWindowState) (name : String) (msg : String) : MainWindowState :=
  let s1 := { s with loadingModel := false, loaderInFlight := s.loaderInFlight.erase name }
  if name ≠ s1.modelName then
    if pendingTruthy s1.pendingModelName then loadModelAsync s1 else s1
  else
    { s1 with
      recordEnabled := false,
      comboEnabled := true,
      status := .modelLoadFailed msg }

/-- `MainWindow._start_transcription` (app.py:616-631): sets status, marks
the clipboard busy and starts a `Transcriber` thread on `audio`. -/
def startTranscription (s : MainWindowState) (audio : List Int) : MainWindowState :=
  { s with
    status := .transcribing,
    clipState := "working", clipMsg := "Clipboard: transcribing",
    workerInFlight := true,
    workerAudio := audio }

/-- Body of `MainWindow._stop_recording` (app.py:587-608).  The record
button is disabled and unchecked, recording stops, the stream is released
(`stop`/`close` in a `finally`), and then either the empty-buffer branch
re-enables the controls with "No audio captured." or the captured chunks
are concatenated and handed to `_start_transcription`. -/
def stopRecordingBody (s : MainWindowState) : MainWindowState :=
  let s1 := { s with
    recordEnabled := false,
    recordChecked := false,
    recording := false,
    stream := false }
  if s1.frames = [] then
    { s1 with
      status := .noAudioCaptured,
      recordEnabled := true,
      comboEnabled := true,
      clipState := "empty", clipMsg := "Clipboard: empty" }
  else
    startTranscription s1 s1.frames.flatten

/-- `MainWindow._start_recording` (app.py:563-585), with the outcome of
opening and starting the input stream passed in (`.ok` = the device opened,
`.error e` = `sd.InputStream(...)`/`stream.start()` raised `e`).  Note
`self.frames = []` executes before the stream is opened, so the buffer is
cleared even on the error path. -/
def startRecording (s : MainWindowState) (mic : Except String Unit) : MainWindowState :=
  if s.model = none then
    { s with status := .modelNotLoaded, recordChecked := false }
  else
    match mic with
    | .ok _ =>
        { s with
          frames := [],
          stream := true,
          recording := true,
          recordChecked := true,
          comboEnabled := false,
          status := .recordingNow,
          clipState := "working", clipMsg := "Clipboard: recording" }
    | .error e =>
        { s with
          frames := [],
          recordChecked := false,
          status := .microphoneError e }

/-- `MainWindow._toggle_recording` (app.py:557-561): the record button is a
toggle; a click starts recording when idle and stops it when recording. -/
def toggleRecording (s : MainWindowState) (mic : Except String Unit) : MainWindowState :=
  if !s.recording then startRecording s mic else stopRecordingBody s

/-- The `stopRecording` intent of the session controller.  In the source,
`_stop_recording` is reachable only through the guard in
`_toggle_recording` (app.py:557-561): it runs exactly when `self.recording`
is true, so a stop request arriving while not recording performs nothing.
This definition packages the body with that guard. -/
def stopRecording (s : MainWindowState) : MainWindowState :=
  if s.recording then stopRecordingBody s else s

/-- `MainWindow._on_audio` (app.py:610-614): the device callback appends a
copy of the incoming chunk while recording. -/
def onAudio (s : MainWindowState) (chunk : List Int) : MainWindowState :=
  if s.recording then { s with frames := s.frames ++ [chunk] } else s

/-- `MainWindow._start_glossary_processing` (app.py:660-675): sets status,
marks the clipboard busy and starts a `GlossaryProcessor` thread on
`text` and `self.glossary_terms`. -/
def startGlossaryProcessing (s : MainWindowState) (text : String) : MainWindowState :=
  { s with
    status := .applyingGlossary,
    clipState := "working", clipMsg := "Clipboard: applying glossary",
    glossaryInFlight := true,
    glossaryJobText := text,
    glossaryJobTerms := s.glossaryTerms }

/-- First phase of `MainWindow._on_transcription_finished`
(app.py:633-639): store the elapsed time and the text, display it, enable
the copy button iff the text is non-empty (`bool(text)`), and copy the text
to the system clipboard. -/
def storeTranscript (s : MainWindowState) (text : String) (elapsed : Nat) : MainWindowState :=
  { s with
    lastTranscriptionTime := elapsed,
    latestText := text,
    textArea := text,
    copyEnabled := text != "",
    clipboard := text }

/-- `MainWindow._on_transcription_finished` (app.py:633-649).  After the
store/copy phase, a glossary pass is launched iff
`text and self.glossary_enabled and self.glossary_terms`; otherwise the
terminal status is set. -/
def onTranscriptionFinished (s : MainWindowState) (text : String) (elapsed : Nat) :
    MainWindowState :=
  let s1 := storeTranscript s text elapsed
  if text ≠ "" ∧ s1.glossaryEnabled = true ∧ s1.glossaryTerms ≠ [] then
    startGlossaryProcessing { s1 with pendingGlossarySource := text } text
  else if text ≠ "" then
    { s1 with status := .doneCopied elapsed, clipState := "ready", clipMsg := "Clipboard: ready" }
  else
    { s1 with status := .doneNoSpeech, clipState := "empty", clipMsg := "Clipboard: empty" }

/-- `MainWindow._on_transcription_error` (app.py:651-654). -/
def onTranscriptionError (s : MainWindowState) (msg : String) : MainWindowState :=
  { s with
    status := .transcriptionFailed msg,
    clipState := "empty", clipMsg := "Clipboard: error" }

/-- `MainWindow._on_worker_finished` (app.py:656-658): connected to the
transcription worker thread's `finished` signal (app.py:630); the thread
has terminated (ghost `workerInFlight := false`) and the handler re-enables
the record button and the model selector. -/
def onWorkerFinished (s : MainWindowState) : MainWindowState :=
  { s with
    workerInFlight := false,
    recordEnabled := true,
    comboEnabled := true }

/-- `MainWindow._on_glossary_finished` (app.py:677-690). -/
def onGlossaryFinished (s : MainWindowState) (text : String) (elapsed : Nat) :
    MainWindowState :=
  let s1 := { s with
    glossaryInFlight := false,
    pendingGlossarySource := "",
    latestText := text,
    textArea := text,
    copyEnabled := text != "",
    clipboard := text }
  if text ≠ "" then
    { s1 with
      status := .doneCopied (s.lastTranscriptionTime + elapsed),
      clipState := "ready", clipMsg := "Clipboard: ready" }
  else
    { s1 with
      status := .glossaryNoText,
      clipState := "empty", clipMsg := "Clipboard: empty" }

/-- `MainWindow._on_glossary_error` (app.py:692-701).  The fallback is
`self._pending_glossary_source or self.latest_text` (Python `or`: the first
operand unless it is empty); a non-empty fallback is re-displayed and
re-copied. -/
def onGlossaryError (s : MainWindowState) (msg : String) : MainWindowState :=
  let fallback := if s.pendingGlossarySource ≠ "" then s.pendingGlossarySource else s.latestText
  let s1 := { s with glossaryInFlight := false, pendingGlossarySource := "" }
  let s2 :=
    if fallback ≠ "" then
      { s1 with latestText := fallback, textArea := fallback, clipboard := fallback }
    else s1
  { s2 with
    status := .glossaryFailed msg,
    clipState := "empty", clipMsg := "Clipboard: error" }

/-- `MainWindow._copy_latest` (app.py:703-708). -/
def copyLatest (s : MainWindowState) : MainWindowState :=
  if s.latestText = "" then s
  else
    { s with
      clipboard := s.latestText,
      status := .copiedLatest,
      clipState := "ready", clipMsg := "Clipboard: ready" }

/-!
## Glossary persistence (`_save_glossary` / `_load_glossary`, app.py:444-465)

`_save_glossary` serializes `self.glossary_terms` as a JSON array of
`{"term": …, "description": …}` objects; `_load_glossary` parses that file
back.  The JSON text layer (`json.dumps` / `json.loads`) is a faithful
round trip on this shape and is modelled as the identity: the file content
is represented directly as a `List GlossaryEntry`.  The defensive branches
of `_load_glossary` (`isinstance(payload, list)`, `isinstance(entry,
dict)`, `str(...)` coercions) are identities on every payload
`_save_glossary` can produce and are absorbed by the typed payload.
Python's `str.strip()` is modelled by `pyStrip` (identical on ASCII
whitespace, which is all the counterexamples use).
-/

/-- Python's `str.strip()` on a character list: drop leading and trailing
whitespace. -/
def stripChars (l : List Char) : List Char :=
  ((l.dropWhile Char.isWhitespace).reverse.dropWhile Char.isWhitespace).reverse

/-- Python's `str.strip()` (no argument): remove surrounding whitespace.
Identical to Python on ASCII whitespace, which is all that occurs in the
claims' inputs; Python additionally strips some rarer Unicode whitespace
code points. -/
def pyStrip (s : String) : String :=
  String.mk (stripChars s.data)

/-- One record of the persisted `glossary.json` array. -/
structure GlossaryEntry where
  term : String
  description : String
  deriving DecidableEq, Repr

/-- `MainWindow._save_glossary` (app.py:462-465): the payload written to
`glossary.json`. -/
def saveGlossary (terms : List (String × String)) : List GlossaryEntry :=
  terms.map fun td => { term := td.1, description := td.2 }

/-- `MainWindow._load_glossary` (app.py:444-460), parsing phase: for each
entry, `term = str(entry.get("term", "")).strip()` and
`desc = str(entry.get("description", "")).strip()`; the pair is kept only
when the trimmed term is non-empty. -/
def loadGlossary (payload : List GlossaryEntry) : List (String × String) :=
  payload.filterMap fun e =>
    let term := pyStrip e.term
    let desc := pyStrip e.description
    if term = "" then none else some (term, desc)

/-- Modelled from the spec's words (for comparison with the code's round
trip): "glossary terms written via persistence and reloaded reproduce the
same ordered list of (term, description) pairs, with terms trimmed of
surrounding whitespace and empty terms excluded" — i.e. descriptions are
kept verbatim, only terms are trimmed. -/
def specClaimedRoundTrip (terms : List (String × String)) : List (String × String) :=
  (terms.map fun td => (pyStrip td.1, td.2)).filter fun td => td.1 != ""

/-!
## External assistant wrapper (`codex_cli_wrapper.py`)

`ask_codex` builds two invocation attempts — first the prompt on standard
input, then the prompt flattened to one line as a trailing argument — and
for each runs the subprocess and tries to recover an answer.  The
subprocess world is passed in as an outcome per attempt: `.error e` models
`subprocess.run` raising (missing executable, timeout), `.ok r` models a
completed process, where `r` also carries the content the designated
temporary output file has when it is read back after that attempt.
-/

/-- Observable outcome of one completed `subprocess.run` call in
`ask_codex`, together with the temporary output file's content at the
read-back point (codex_cli_wrapper.py:109-126). -/
structure ProcResult where
  returncode : Int
  stdout : String
  stderr : String
  fileContent : String
  deriving DecidableEq, Repr

/-- Answer recovery for one attempt (codex_cli_wrapper.py:124-133):
`file_output`, `stdout`, `stderr` are each stripped; the first non-empty
one is returned, but only when the return code is zero; otherwise the
attempt yields nothing. -/
def recoverOutput (r : ProcResult) : Option String :=
  let fileOutput := pyStrip r.fileContent
  let output := pyStrip r.stdout
  let err := pyStrip r.stderr
  if r.returncode = 0 ∧ fileOutput ≠ "" then some fileOutput
  else if r.returncode = 0 ∧ output ≠ "" then some output
  else if r.returncode = 0 ∧ err ≠ "" then some err
  else none

/-- The `last_error` recorded for a completed attempt that recovered no
output (codex_cli_wrapper.py:135-137); the command text is abstracted. -/
def procFailMsg (r : ProcResult) : String :=
  "Command failed, return code " ++ toString r.returncode ++ ", stderr: " ++
    (if pyStrip r.stderr = "" then "<empty>" else pyStrip r.stderr)

/-- The final error when every attempt failed
(codex_cli_wrapper.py:141). -/
def allFailedMsg (lastError : Option String) : String :=
  "All Codex invocation attempts failed. Last error: " ++
    (match lastError with
     | some e => e
     | none => "None")

/-- The attempt loop of `ask_codex` (codex_cli_wrapper.py:106-137) over the
given per-attempt outcomes, threading `last_error`.  Returns the result
(`.ok answer` for an early `return`, `.error` for the final `raise`) paired
with the number of attempts actually executed. -/
def askCodexLoop : List (Except String ProcResult) → Option String → Except String String × Nat
  | [], lastError => (.error (allFailedMsg lastError), 0)
  | .error e :: rest, _ =>
      let r := askCodexLoop rest (some e)
      (r.1, r.2 + 1)
  | .ok p :: rest, _ =>
      match recoverOutput p with
      | some v => (.ok v, 1)
      | none =>
          let r := askCodexLoop rest (some (procFailMsg p))
          (r.1, r.2 + 1)

/-- `ask_codex` runs exactly two attempts (codex_cli_wrapper.py:86-102):
first the prompt via standard input (`a1`), then the prompt flattened to
one line as a trailing argument (`a2`). -/
def askCodexRun (a1 a2 : Except String ProcResult) : Except String String × Nat :=
  askCodexLoop [a1, a2] none

/-- Does an attempt yield no usable output (so that the loop proceeds to
the next attempt)?  True when `subprocess.run` raised, when the exit code
was non-zero, or when all three output channels were empty after
stripping. -/
def attemptNoOutput : Except String ProcResult → Bool
  | .error _ => true
  | .ok p => (recoverOutput p).isNone

/-- Glossary line rendering in `GlossaryProcessor.run` (app.py:94-96):
`f"- {term}: {desc}" if desc else f"- {term}"`. -/
def glossaryLine (td : String × String) : String :=
  if td.2 ≠ "" then "- " ++ td.1 ++ ": " ++ td.2 else "- " ++ td.1

/-- The glossary block joined with newlines (app.py:94-96). -/
def glossaryBlock (terms : List (String × String)) : String :=
  String.intercalate "\n" (terms.map glossaryLine)

/-- `GlossaryProcessor.run` (app.py:90-114) as a function of the outcome of
its `ask_codex` call (`.error e` models the call raising, caught by the
`except` and emitted on the `error` signal).  The reply is stripped
(`(result or "").strip()`); an empty stripped reply is replaced by the
original transcript; `finished` is emitted with the text and elapsed
time. -/
def glossaryProcessorRun (text : String) (askResult : Except String String) (elapsed : Nat) :
    Except String (String × Nat) :=
  match askResult with
  | .error e => .error e
  | .ok reply =>
      let cleaned := pyStrip reply
      .ok ((if cleaned = "" then text else cleaned), elapsed)

/-!
## Helper predicates for the claims
-/

/-- A sequence of model-selection requests as the combo box can emit them
while a load is in flight: each requested name differs from the
then-current selection (`currentTextChanged` only fires on an actual
change, and `_on_model_change` ignores a re-selection) and is one of the
non-empty combo entries. -/
def effectiveReqs : String → List String → Bool
  | _, [] => true
  | cur, n :: rest => n != cur && n != "" && effectiveReqs n rest

/-- The last element of `ns`, with default `d` for the empty list; written
to match the recursion of `List.foldl`. -/
def lastOf (d : String) : List String → String
  | [] => d
  | n :: rest => lastOf n rest

/-- Well-formedness of the model-loading machinery: at most one
`ModelLoader` thread is running, and the `_loading_model` flag is set
exactly while one is. -/
def wfLoads (s : MainWindowState) : Prop :=
  s.loaderInFlight.length ≤ 1 ∧ (s.loadingModel = true ↔ s.loaderInFlight ≠ [])

/-!
## Concrete states for witnesses and counterexamples
-/

/-- The state right after `MainWindow.__init__` (app.py:209-235) finishes
`_build_ui` but before `_load_model_async` is first called: no model, the
default model name, empty buffers, copy button disabled
(app.py:299). -/
def initState : MainWindowState where
  model := none
  modelName := "small"
  recording := false
  frames := []
  stream := false
  latestText := ""
  glossaryEnabled := false
  glossaryTerms := []
  pendingGlossarySource := ""
  lastTranscriptionTime := 0
  loadingModel := false
  pendingModelName := none
  recordEnabled := true
  recordChecked := false
  comboEnabled := true
  copyEnabled := false
  textArea := ""
  status := .loadingModel
  clipState := "idle"
  clipMsg := "Clipboard: idle"
  clipboard := ""
  loaderInFlight := []
  workerInFlight := false
  workerAudio := []
  glossaryInFlight := false
  glossaryJobText := ""
  glossaryJobTerms := []

/-- A state with the initial load of "small" in flight: `initState` after
`_load_model_async`. -/
def loadInFlightState : MainWindowState :=
  loadModelAsync initState

/-- A state ready to record with the glossary enabled and one term: model
"small" loaded, recording in progress with one captured chunk. -/
def recordingState : MainWindowState :=
  { initState with
    model := some "small"
    recording := true
    frames := [[0, 1], [2]]
    stream := true
    recordChecked := true
    comboEnabled := false
    glossaryEnabled := true
    glossaryTerms := [("Kubernetes", "container orchestration")]
    status := .recordingNow
    clipState := "working"
    clipMsg := "Clipboard: recording" }

/-!
## Helper lemmas
-/

theorem effectiveReqs_cons {cur n : String} {rest : List String}
    (h : effectiveReqs cur (n :: rest) = true) :
    n ≠ cur ∧ n ≠ "" ∧ effectiveReqs n rest = true := by
  simp only [effectiveReqs, Bool.and_eq_true, bne_iff_ne] at h
  exact ⟨h.1.1, h.1.2, h.2⟩

theorem lastOf_eq_getLast (ns : List String) (hne : ns ≠ []) (d : String) :
    lastOf d ns = ns.getLast hne := by
  induction ns generalizing d with
  | nil => exact absurd rfl hne
  | cons n rest ih =>
    cases rest with
    | nil => rfl
    | cons m ms => simpa [lastOf] using ih (by simp) n

theorem effectiveReqs_lastOf_ne (ns : List String) (cur : String)
    (heff : effectiveReqs cur ns = true) (hcur : cur ≠ "") :
    lastOf cur ns ≠ "" := by
  induction ns generalizing cur with
  | nil => exact hcur
  | cons n rest ih =>
    obtain ⟨_, h2, h3⟩ := effectiveReqs_cons heff
    exact ih n h3 h2

theorem onTranscriptionFinished_recordEnabled (s : MainWindowState) (t : String) (e : Nat) :
    (onTranscriptionFinished s t e).recordEnabled = s.recordEnabled := by
  simp only [onTranscriptionFinished, startGlossaryProcessing, storeTranscript]
  split
  · rfl
  · split <;> rfl

theorem onTranscriptionFinished_comboEnabled (s : MainWindowState) (t : String) (e : Nat) :
    (onTranscriptionFinished s t e).comboEnabled = s.comboEnabled := by
  simp only [onTranscriptionFinished, startGlossaryProcessing, storeTranscript]
  split
  · rfl
  · split <;> rfl

/-!
## Claims C5, C10, C8, C6
-/

/-- Claim C5: a `stopRecording` issued while recording with zero captured
audio chunks launches no transcription, sets the status to "No audio
captured.", and re-enables the record button and the model selector. -/
theorem c5_stop_empty_buffer (s : MainWindowState)
    (hrec : s.recording = true) (hframes : s.frames = []) :
    (stopRecording s).workerInFlight = s.workerInFlight ∧
    (stopRecording s).status = .noAudioCaptured ∧
    (stopRecording s).recordEnabled = true ∧
    (stopRecording s).comboEnabled = true ∧
    (stopRecording s).recording = false := by
  simp [stopRecording, hrec, stopRecordingBody, hframes]

/-- Claim C5 witness: `stopRecording` on a concrete recording state with an
empty buffer. -/
theorem c5_stop_empty_buffer_witness :
    (stopRecording { recordingState with frames := [] }).workerInFlight = false ∧
    (stopRecording { recordingState with frames := [] }).status = .noAudioCaptured ∧
    (stopRecording { recordingState with frames := [] }).recordEnabled = true := by
  have h := c5_stop_empty_buffer { recordingState with frames := [] } rfl rfl
  exact ⟨h.1, h.2.1, h.2.2.1⟩

/-- Claim C10: when recording is not active, the `stopRecording` intent is
an idempotent no-op — it launches no transcription and changes no session
field, and a second invocation yields the same unchanged state. -/
theorem c10_stop_not_recording_noop (s : MainWindowState) (h : s.recording = false) :
    stopRecording s = s ∧
    stopRecording (stopRecording s) = s ∧
    (stopRecording s).workerInFlight = s.workerInFlight := by
  simp [stopRecording, h]

/-- Claim C10 witness: `stopRecording` on the concrete idle start-up
state. -/
theorem c10_stop_not_recording_noop_witness :
    stopRecording initState = initState ∧ stopRecording (stopRecording initState) = initState :=
  ⟨(c10_stop_not_recording_noop initState rfl).1, (c10_stop_not_recording_noop initState rfl).2.1⟩

/-- Claim C8: for a non-empty transcript, an assistant reply that is empty
or whitespace-only is treated as "no change": `GlossaryProcessor.run`
emits `finished` with the original transcript (and the elapsed time) and
does not signal an error. -/
theorem c8_empty_reply_no_change (text reply : String) (e : Nat)
    (_htext : text ≠ "") (hreply : pyStrip reply = "") :
    glossaryProcessorRun text (.ok reply) e = .ok (text, e) := by
  simp [glossaryProcessorRun, hreply]

/-- Claim C8 witness: a whitespace-only reply to the transcript "hello". -/
theorem c8_empty_reply_no_change_witness :
    glossaryProcessorRun "hello" (.ok "  ") 3 = .ok ("hello", 3) :=
  c8_empty_reply_no_change "hello" "  " 3 (by decide) (by decide)

/-- Claim C6: for one invocation attempt of the external assistant, the
output is recovered with precedence temporary-output-file content, then
stdout, then stderr — first non-empty after stripping — and only under
exit code zero; a non-zero exit recovers nothing and the loop records the
failure and moves on. -/
theorem c6_recovery_precedence (r : ProcResult) :
    (r.returncode ≠ 0 → recoverOutput r = none) ∧
    (r.returncode = 0 → pyStrip r.fileContent ≠ "" →
      recoverOutput r = some (pyStrip r.fileContent)) ∧
    (r.returncode = 0 → pyStrip r.fileContent = "" → pyStrip r.stdout ≠ "" →
      recoverOutput r = some (pyStrip r.stdout)) ∧
    (r.returncode = 0 → pyStrip r.fileContent = "" → pyStrip r.stdout = "" →
      pyStrip r.stderr ≠ "" → recoverOutput r = some (pyStrip r.stderr)) ∧
    (r.returncode = 0 → pyStrip r.fileContent = "" → pyStrip r.stdout = "" →
      pyStrip r.stderr = "" → recoverOutput r = none) ∧
    (∀ rest le, r.returncode ≠ 0 →
      askCodexLoop (.ok r :: rest) le =
        ((askCodexLoop rest (some (procFailMsg r))).1,
         (askCodexLoop rest (some (procFailMsg r))).2 + 1)) := by
  refine ⟨?_, ?_, ?_, ?_, ?_, ?_⟩
  · intro h; simp [recoverOutput, h]
  · intro h hf; simp [recoverOutput, h, hf]
  · intro h hf ho; simp [recoverOutput, h, hf, ho]
  · intro h hf ho he; simp [recoverOutput, h, hf, ho, he]
  · intro h hf ho he; simp [recoverOutput, h, hf, ho, he]
  · intro rest le h
    have hnone : recoverOutput r = none := by simp [recoverOutput, h]
    simp [askCodexLoop, hnone]

/-- Claim C6 witness: exit code zero with an empty output file and a
non-empty stdout recovers the stripped stdout; a non-zero exit recovers
nothing. -/
theorem c6_recovery_precedence_witness :
    recoverOutput ⟨0, " hi ", "err", ""⟩ = some "hi" ∧
    recoverOutput ⟨3, " hi ", "err", "file"⟩ = none := by
  constructor
  · exact (c6_recovery_precedence ⟨0, " hi ", "err", ""⟩).2.2.1 (by decide) (by decide) (by decide)
  · exact (c6_recovery_precedence ⟨3, " hi ", "err", "file"⟩).1 (by decide)

/-!
## Claims C7 (corrected), C9 (corrected), C3, C4
-/

/-- Claim C7 counterexample: the claim says a non-zero exit code on the
first (stdin) attempt does not trigger the fallback attempt.  In the code
the attempt loop records `last_error` and continues on any completed
attempt that recovers no output, including a non-zero exit: with the first
attempt exiting 1 and the second succeeding, both attempts run and the
fallback's answer is returned. -/
theorem c7_counterexample :
    (askCodexRun (.ok ⟨1, "", "", ""⟩) (.ok ⟨0, "answer", "", ""⟩)).2 = 2 ∧
    (askCodexRun (.ok ⟨1, "", "", ""⟩) (.ok ⟨0, "answer", "", ""⟩)).1 = .ok "answer" ∧
    (⟨1, "", "", ""⟩ : ProcResult).returncode ≠ 0 :=
  ⟨rfl, rfl, by decide⟩

/-- Claim C7 amended: the second invocation attempt (flattened prompt as a
trailing argument) is performed exactly when the first (stdin) attempt
yields no usable output — whether because the run raised, the exit code
was non-zero, or all output channels were empty under exit code zero.  In
particular a non-zero exit on the first attempt does trigger the
fallback. -/
theorem c7_fallback_on_any_first_failure (a1 a2 : Except String ProcResult) :
    ((askCodexRun a1 a2).2 = 2 ↔ attemptNoOutput a1 = true) ∧
    ((askCodexRun a1 a2).2 = 1 ↔ attemptNoOutput a1 = false) := by
  cases a1 with
  | error e =>
    cases a2 with
    | error f => simp [askCodexRun, askCodexLoop, attemptNoOutput]
    | ok q =>
      cases hq : recoverOutput q <;>
        simp [askCodexRun, askCodexLoop, attemptNoOutput, hq]
  | ok p =>
    cases hp : recoverOutput p with
    | none =>
      cases a2 with
      | error f => simp [askCodexRun, askCodexLoop, attemptNoOutput, hp]
      | ok q =>
        cases hq : recoverOutput q <;>
          simp [askCodexRun, askCodexLoop, attemptNoOutput, hp, hq]
    | some v => simp [askCodexRun, askCodexLoop, attemptNoOutput, hp]

/-- Claim C9 counterexample: the claim reproduces descriptions verbatim,
but `_load_glossary` also strips descriptions — saving `("a", " b ")` and
loading it back yields `("a", "b")`, not `("a", " b ")`. -/
theorem c9_counterexample :
    loadGlossary (saveGlossary [("a", " b ")]) = [("a", "b")] ∧
    specClaimedRoundTrip [("a", " b ")] = [("a", " b ")] ∧
    loadGlossary (saveGlossary [("a", " b ")]) ≠ specClaimedRoundTrip [("a", " b ")] := by
  refine ⟨rfl, rfl, ?_⟩
  decide

/-- Claim C9 amended: saving the ordered glossary list and loading it back
reproduces the same ordered list with every term and every description
trimmed of surrounding whitespace, and every pair whose trimmed term is
empty excluded. -/
theorem c9_roundtrip_trims_both (terms : List (String × String)) :
    loadGlossary (saveGlossary terms) =
      (terms.map fun td => (pyStrip td.1, pyStrip td.2)).filter fun td => td.1 != "" := by
  induction terms with
  | nil => rfl
  | cons td rest ih =>
    by_cases h : pyStrip td.1 = ""
    · simpa [loadGlossary, saveGlossary, h] using ih
    · simpa [loadGlossary, saveGlossary, h] using ih

/-- Claim C3: when the glossary pass fails after a successful transcription
that produced (non-empty) text `t` and launched the pass, the display, the
clipboard and the latest-transcript field all still hold `t`, the status
becomes the glossary-failure message, and in general a glossary failure
never blanks a non-empty transcript. -/
theorem c3_glossary_failure_keeps_transcript (s : MainWindowState) (t msg : String) (e : Nat)
    (ht : t ≠ "") (hg : s.glossaryEnabled = true) (hterms : s.glossaryTerms ≠ []) :
    (onGlossaryError (onTranscriptionFinished s t e) msg).latestText = t ∧
    (onGlossaryError (onTranscriptionFinished s t e) msg).textArea = t ∧
    (onGlossaryError (onTranscriptionFinished s t e) msg).clipboard = t ∧
    (onGlossaryError (onTranscriptionFinished s t e) msg).status = .glossaryFailed msg ∧
    (∀ u m, (onGlossaryError u m).latestText = "" →
      u.latestText = "" ∧ u.pendingGlossarySource = "") := by
  refine ⟨?_, ?_, ?_, ?_, ?_⟩
  · simp [onTranscriptionFinished, storeTranscript, startGlossaryProcessing,
      onGlossaryError, ht, hg, hterms]
  · simp [onTranscriptionFinished, storeTranscript, startGlossaryProcessing,
      onGlossaryError, ht, hg, hterms]
  · simp [onTranscriptionFinished, storeTranscript, startGlossaryProcessing,
      onGlossaryError, ht, hg, hterms]
  · simp [onTranscriptionFinished, storeTranscript, startGlossaryProcessing,
      onGlossaryError, ht, hg, hterms]
  · intro u m
    simp only [onGlossaryError]
    by_cases hp : u.pendingGlossarySource = ""
    · by_cases hl : u.latestText = ""
      · simp [hp, hl]
      · simp [hp, hl]
    · simp [hp]

/-- Claim C3 witness: a concrete glossary failure after transcribing
"hi". -/
theorem c3_glossary_failure_keeps_transcript_witness :
    (onGlossaryError (onTranscriptionFinished recordingState "hi" 2) "boom").clipboard = "hi" ∧
    (onGlossaryError (onTranscriptionFinished recordingState "hi" 2) "boom").status =
      .glossaryFailed "boom" :=
  ⟨(c3_glossary_failure_keeps_transcript recordingState "hi" "boom" 2
      (by decide) rfl (by decide)).2.2.1,
   (c3_glossary_failure_keeps_transcript recordingState "hi" "boom" 2
      (by decide) rfl (by decide)).2.2.2.1⟩

/-- Claim C4: on transcription completion with text `t`, the controller
stores `t` as the latest transcript and writes it to the clipboard already
in the phase before the glossary-launch decision, enables the copy control
iff `t` is non-empty, launches the glossary pass exactly when `t` is
non-empty, glossary rewriting is enabled and at least one term exists, and
otherwise ends with the Done status (`t` non-empty) or the no-speech
status (`t` empty). -/
theorem c4_transcription_completion (s : MainWindowState) (t : String) (e : Nat)
    (hfl : s.glossaryInFlight = false) :
    (storeTranscript s t e).latestText = t ∧
    (storeTranscript s t e).clipboard = t ∧
    (onTranscriptionFinished s t e).latestText = t ∧
    (onTranscriptionFinished s t e).clipboard = t ∧
    ((onTranscriptionFinished s t e).copyEnabled = true ↔ t ≠ "") ∧
    ((onTranscriptionFinished s t e).glossaryInFlight = true ↔
      (t ≠ "" ∧ s.glossaryEnabled = true ∧ s.glossaryTerms ≠ [])) ∧
    (t ≠ "" ∧ s.glossaryEnabled = true ∧ s.glossaryTerms ≠ [] →
      (onTranscriptionFinished s t e).status = .applyingGlossary ∧
      (onTranscriptionFinished s t e).glossaryJobText = t) ∧
    (¬(t ≠ "" ∧ s.glossaryEnabled = true ∧ s.glossaryTerms ≠ []) → t ≠ "" →
      (onTranscriptionFinished s t e).status = .doneCopied e) ∧
    (t = "" → (onTranscriptionFinished s t e).status = .doneNoSpeech) := by
  by_cases hc : t ≠ "" ∧ s.glossaryEnabled = true ∧ s.glossaryTerms ≠ []
  · refine ⟨rfl, rfl, ?_⟩
    simp [onTranscriptionFinished, storeTranscript, startGlossaryProcessing, hc, hc.1]
  · by_cases ht : t = ""
    · refine ⟨rfl, rfl, ?_⟩
      simp [onTranscriptionFinished, storeTranscript, startGlossaryProcessing, hc, ht, hfl]
    · refine ⟨rfl, rfl, ?_⟩
      have hng : ¬(s.glossaryEnabled = true ∧ s.glossaryTerms ≠ []) := fun hx => hc ⟨ht, hx.1, hx.2⟩
      simp [onTranscriptionFinished, storeTranscript, startGlossaryProcessing, hc, ht, hng, hfl]

/-- Claim C4 witness: completion with "hi" while the glossary is enabled
with one term launches the glossary pass with the clipboard already
holding "hi". -/
theorem c4_transcription_completion_witness :
    (onTranscriptionFinished recordingState "hi" 2).clipboard = "hi" ∧
    (onTranscriptionFinished recordingState "hi" 2).status = .applyingGlossary :=
  ⟨(c4_transcription_completion recordingState "hi" 2 rfl).2.2.2.1,
   ((c4_transcription_completion recordingState "hi" 2 rfl).2.2.2.2.2.2.1 (by decide)).1⟩

/-!
## Claim C2 (corrected)

Event order in the main thread after a stop with a non-empty buffer (all
these slots run on the UI thread, in queue order):

1. the `Transcriber` emits `finished`; that signal is connected first to
   `_on_transcription_finished` (app.py:625) — which, when the glossary
   condition holds, starts the glossary thread — and then to the worker
   thread's `quit` (app.py:627);
2. the worker thread exits and emits `finished`, which invokes
   `_on_worker_finished` (app.py:630), re-enabling the record button and
   the model selector;
3. the glossary thread, started in step 1 and still running an external
   subprocess, settles strictly later with `_on_glossary_finished` or
   `_on_glossary_error`.

So when a glossary pass is triggered, the controls are re-enabled at step
2, while the glossary pass is still in flight — not when the whole chain
settles.
-/

theorem onGlossaryFinished_controls (u : MainWindowState) (g : String) (eg : Nat) :
    (onGlossaryFinished u g eg).recordEnabled = u.recordEnabled ∧
    (onGlossaryFinished u g eg).comboEnabled = u.comboEnabled := by
  simp only [onGlossaryFinished]
  split <;> exact ⟨rfl, rfl⟩

theorem onGlossaryError_controls (u : MainWindowState) (m : String) :
    (onGlossaryError u m).recordEnabled = u.recordEnabled ∧
    (onGlossaryError u m).comboEnabled = u.comboEnabled := by
  by_cases hp : u.pendingGlossarySource = ""
  · by_cases hl : u.latestText = ""
    · simp [onGlossaryError, hp, hl]
    · simp [onGlossaryError, hp, hl]
  · simp [onGlossaryError, hp]

/-- Claim C2 counterexample: starting from a concrete recording state with
a non-empty buffer and the glossary enabled with one term, after the
transcription settles and the worker thread finishes, the record button
and the model selector are already re-enabled while the glossary pass is
still in flight — the claim's "never at any earlier step" is violated. -/
theorem c2_counterexample :
    (onWorkerFinished (onTranscriptionFinished (stopRecording recordingState) "hello" 1)).recordEnabled
      = true ∧
    (onWorkerFinished (onTranscriptionFinished (stopRecording recordingState) "hello" 1)).comboEnabled
      = true ∧
    (onWorkerFinished (onTranscriptionFinished (stopRecording recordingState) "hello" 1)).glossaryInFlight
      = true ∧
    (onTranscriptionFinished (stopRecording recordingState) "hello" 1).status =
      .applyingGlossary := by
  decide

/-- Claim C2 amended: in every run starting at `stopRecording` with a
non-empty buffer, the record button and the model selector stay disabled
through the transcription settle (success or failure) and are re-enabled
exactly when the transcription worker thread finishes; a triggered
glossary pass neither delays this re-enablement nor changes the controls
when it later settles. -/
theorem c2_controls_reenable_at_worker_finish (s : MainWindowState) (t msg : String) (e : Nat)
    (hrec : s.recording = true) (hframes : s.frames ≠ []) (hcombo : s.comboEnabled = false) :
    ((stopRecording s).recordEnabled = false ∧
     (stopRecording s).comboEnabled = false ∧
     (stopRecording s).workerInFlight = true) ∧
    ((onTranscriptionFinished (stopRecording s) t e).recordEnabled = false ∧
     (onTranscriptionFinished (stopRecording s) t e).comboEnabled = false) ∧
    ((onTranscriptionError (stopRecording s) msg).recordEnabled = false ∧
     (onTranscriptionError (stopRecording s) msg).comboEnabled = false) ∧
    ((onWorkerFinished (onTranscriptionFinished (stopRecording s) t e)).recordEnabled = true ∧
     (onWorkerFinished (onTranscriptionFinished (stopRecording s) t e)).comboEnabled = true) ∧
    ((onWorkerFinished (onTranscriptionError (stopRecording s) msg)).recordEnabled = true ∧
     (onWorkerFinished (onTranscriptionError (stopRecording s) msg)).comboEnabled = true) ∧
    (∀ u g m eg,
      (onGlossaryFinished u g eg).recordEnabled = u.recordEnabled ∧
      (onGlossaryFinished u g eg).comboEnabled = u.comboEnabled ∧
      (onGlossaryError u m).recordEnabled = u.recordEnabled ∧
      (onGlossaryError u m).comboEnabled = u.comboEnabled) := by
  have h1 : (stopRecording s).recordEnabled = false ∧
      (stopRecording s).comboEnabled = false ∧
      (stopRecording s).workerInFlight = true := by
    simp [stopRecording, hrec, stopRecordingBody, hframes, startTranscription, hcombo]
  refine ⟨h1, ?_, ⟨h1.1, h1.2.1⟩, ⟨rfl, rfl⟩, ⟨rfl, rfl⟩, ?_⟩
  · rw [onTranscriptionFinished_recordEnabled, onTranscriptionFinished_comboEnabled]
    exact ⟨h1.1, h1.2.1⟩
  · intro u g m eg
    exact ⟨(onGlossaryFinished_controls u g eg).1, (onGlossaryFinished_controls u g eg).2,
      (onGlossaryError_controls u m).1, (onGlossaryError_controls u m).2⟩

/-- Claim C2 witness (amended): concrete run from `recordingState`. -/
theorem c2_controls_reenable_at_worker_finish_witness :
    (stopRecording recordingState).recordEnabled = false ∧
    (onWorkerFinished (onTranscriptionFinished (stopRecording recordingState) "hello" 1)).recordEnabled
      = true :=
  ⟨(c2_controls_reenable_at_worker_finish recordingState "hello" "err" 1
      rfl (by decide) rfl).1.1,
   (c2_controls_reenable_at_worker_finish recordingState "hello" "err" 1
      rfl (by decide) rfl).2.2.2.1.1⟩

/-!
## Claim C1
-/

theorem foldl_onModelChange_props (ns : List String) (s : MainWindowState)
    (hload : s.loadingModel = true) (hrec : s.recording = false)
    (heff : effectiveReqs s.modelName ns = true) :
    (ns.foldl onModelChange s).loadingModel = true ∧
    (ns.foldl onModelChange s).recording = false ∧
    (ns.foldl onModelChange s).loaderInFlight = s.loaderInFlight ∧
    (ns.foldl onModelChange s).modelName = lastOf s.modelName ns ∧
    (ns ≠ [] → (ns.foldl onModelChange s).pendingModelName = some (lastOf s.modelName ns)) := by
  induction ns generalizing s with
  | nil => exact ⟨hload, hrec, rfl, rfl, fun h => absurd rfl h⟩
  | cons n rest ih =>
    obtain ⟨hne, hne2, heff2⟩ := effectiveReqs_cons heff
    have hstep : onModelChange s n = { s with modelName := n, pendingModelName := some n } := by
      rw [onModelChange]
      simp [hrec, hne, loadModelAsync, hload]
    rw [List.foldl_cons, hstep]
    have hres := ih { s with modelName := n, pendingModelName := some n } hload hrec heff2
    refine ⟨hres.1, hres.2.1, hres.2.2.1, hres.2.2.2.1, fun _ => ?_⟩
    by_cases hr : rest = []
    · subst hr
      exact rfl
    · exact hres.2.2.2.2 hr

theorem onModelLoaded_stale_restarts (t : MainWindowState) (a : String)
    (hstale : a ≠ t.modelName) (hp : t.pendingModelName = some t.modelName)
    (hmn : t.modelName ≠ "") (hin : t.loaderInFlight = [a]) :
    (onModelLoaded t a).loaderInFlight = [t.modelName] ∧
    (onModelLoaded t a).loadingModel = true ∧
    (onModelLoaded t a).modelName = t.modelName ∧
    (onModelLoaded t a).model = t.model := by
  simp [onModelLoaded, hstale, hp, pendingTruthy, hmn, hin, loadModelAsync]

theorem onModelError_stale_restarts (t : MainWindowState) (a m : String)
    (hstale : a ≠ t.modelName) (hp : t.pendingModelName = some t.modelName)
    (hmn : t.modelName ≠ "") (hin : t.loaderInFlight = [a]) :
    (onModelError t a m).loaderInFlight = [t.modelName] ∧
    (onModelError t a m).loadingModel = true ∧
    (onModelError t a m).modelName = t.modelName := by
  simp [onModelError, hstale, hp, pendingTruthy, hmn, hin, loadModelAsync]

theorem wfLoads_loadModelAsync (t : MainWindowState) (h : wfLoads t) :
    wfLoads (loadModelAsync t) := by
  obtain ⟨h1, h2⟩ := h
  by_cases hl : t.loadingModel = true
  · rw [loadModelAsync, if_pos hl]
    exact ⟨h1, h2⟩
  · have hnil : t.loaderInFlight = [] := by
      by_contra hne
      exact hl (h2.mpr hne)
    simp [loadModelAsync, wfLoads, hl, hnil]

theorem wfLoads_onModelChange (t : MainWindowState) (n : String) (h : wfLoads t) :
    wfLoads (onModelChange t n) := by
  rw [onModelChange]
  split
  · exact h
  · split
    · exact h
    · exact wfLoads_loadModelAsync _ h

theorem wfLoads_onModelLoaded (t : MainWindowState) (n : String)
    (hin : t.loaderInFlight = [n]) (_h : wfLoads t) :
    wfLoads (onModelLoaded t n) := by
  have hmid : wfLoads
      { t with loadingModel := false, loaderInFlight := t.loaderInFlight.erase n } := by
    simp [wfLoads, hin]
  rw [onModelLoaded]
  split
  · split
    · exact wfLoads_loadModelAsync _ hmid
    · exact hmid
  · exact hmid

theorem wfLoads_onModelError (t : MainWindowState) (n m : String)
    (hin : t.loaderInFlight = [n]) (_h : wfLoads t) :
    wfLoads (onModelError t n m) := by
  have hmid : wfLoads
      { t with loadingModel := false, loaderInFlight := t.loaderInFlight.erase n } := by
    simp [wfLoads, hin]
  rw [onModelError]
  split
  · split
    · exact wfLoads_loadModelAsync _ hmid
    · exact hmid
  · exact hmid

/-- Claim C1: with a load for `a` in flight, every `selectModel` request of
an effective request sequence only re-targets the selection and the
pending switch (no new loader thread starts, the in-flight load is kept);
when the in-flight load settles — success or failure — stale (`a` differs
from the final selection), exactly one new load starts, and it is for the
last-issued name; and the model-loading operations preserve the invariant
that at most one loader thread is ever running. -/
theorem c1_model_switch_serialized (s : MainWindowState) (a msg : String) (ns : List String)
    (hne : ns ≠ []) (hload : s.loadingModel = true) (hrec : s.recording = false)
    (hin : s.loaderInFlight = [a]) (heff : effectiveReqs s.modelName ns = true)
    (hstale : a ≠ lastOf s.modelName ns) :
    (ns.foldl onModelChange s).loaderInFlight = [a] ∧
    (ns.foldl onModelChange s).loadingModel = true ∧
    (ns.foldl onModelChange s).pendingModelName = some (lastOf s.modelName ns) ∧
    (ns.foldl onModelChange s).modelName = lastOf s.modelName ns ∧
    lastOf s.modelName ns = ns.getLast hne ∧
    (onModelLoaded (ns.foldl onModelChange s) a).loaderInFlight = [lastOf s.modelName ns] ∧
    (onModelLoaded (ns.foldl onModelChange s) a).loadingModel = true ∧
    (onModelError (ns.foldl onModelChange s) a msg).loaderInFlight = [lastOf s.modelName ns] ∧
    (onModelError (ns.foldl onModelChange s) a msg).loadingModel = true ∧
    (∀ u n, wfLoads u → wfLoads (onModelChange u n)) ∧
    (∀ u, wfLoads u → wfLoads (loadModelAsync u)) ∧
    (∀ u n, u.loaderInFlight = [n] → wfLoads u → wfLoads (onModelLoaded u n)) ∧
    (∀ u n m, u.loaderInFlight = [n] → wfLoads u → wfLoads (onModelError u n m)) := by
  obtain ⟨f1, f2, f3, f4, f5⟩ := foldl_onModelChange_props ns s hload hrec heff
  have hstale1 : a ≠ (ns.foldl onModelChange s).modelName := by rw [f4]; exact hstale
  have hp1 : (ns.foldl onModelChange s).pendingModelName =
      some (ns.foldl onModelChange s).modelName := by rw [f5 hne, f4]
  have hlast_ne : lastOf s.modelName ns ≠ "" := by
    cases ns with
    | nil => exact absurd rfl hne
    | cons n rest =>
      obtain ⟨_, h2, h3⟩ := effectiveReqs_cons heff
      exact effectiveReqs_lastOf_ne rest n h3 h2
  have hmn1 : (ns.foldl onModelChange s).modelName ≠ "" := by rw [f4]; exact hlast_ne
  have hin1 : (ns.foldl onModelChange s).loaderInFlight = [a] := by rw [f3, hin]
  obtain ⟨l1, l2, l3, _⟩ :=
    onModelLoaded_stale_restarts (ns.foldl onModelChange s) a hstale1 hp1 hmn1 hin1
  obtain ⟨e1, e2, e3⟩ :=
    onModelError_stale_restarts (ns.foldl onModelChange s) a msg hstale1 hp1 hmn1 hin1
  refine ⟨hin1, f1, f5 hne, f4, lastOf_eq_getLast ns hne s.modelName, ?_, l2, ?_, e2,
    fun u n hu => wfLoads_onModelChange u n hu,
    fun u hu => wfLoads_loadModelAsync u hu,
    fun u n h1 h2 => wfLoads_onModelLoaded u n h1 h2,
    fun u n m h1 h2 => wfLoads_onModelError u n m h1 h2⟩
  · rw [l1, f4]
  · rw [e1, f4]

/-- Claim C1 witness: with the initial load of "small" in flight, the
requests "base" then "medium" leave only the pending switch "medium"; when
the stale "small" load settles, exactly the load of "medium" starts. -/
theorem c1_model_switch_serialized_witness :
    (onModelLoaded (List.foldl onModelChange loadInFlightState ["base", "medium"]) "small").loaderInFlight
      = ["medium"] ∧
    (List.foldl onModelChange loadInFlightState ["base", "medium"]).pendingModelName
      = some "medium" :=
  ⟨(c1_model_switch_serialized loadInFlightState "small" "x" ["base", "medium"]
      (by decide) rfl rfl rfl (by decide) (by decide)).2.2.2.2.2.1,
   (c1_model_switch_serialized loadInFlightState "small" "x" ["base", "medium"]
      (by decide) rfl rfl rfl (by decide) (by decide)).2.2.1⟩
